import Mathlib

/-!
Shallow embedding of the OpenAssistant RAG server (rag-server/config.py and
rag-server/server.py), together with theorems settling the specification
claims about provider/model resolution, authentication and ingestion.

Python strings are modelled as Lean `String`; `os.getenv` is modelled by an
abstract environment `Env : String → Option String` (`none` = variable unset);
Python string truthiness (`or`, `if s:`) is modelled by explicit emptiness
tests; the HTTP fetch is modelled by an abstract outcome type.
-/

/-- Entry of the static provider registry PROVIDER_DEFAULTS (config.py):
base URL, default model id, credential environment-variable name. -/
structure ProviderEntry where
  base_url : String
  default_model : String
  env_key : String
deriving DecidableEq, Repr

/-- Registry entry for "openai" (PROVIDER_DEFAULTS["openai"], config.py lines 10-14). -/
def openaiDefaults : ProviderEntry :=
  ⟨"https://api.openai.com/v1", "gpt-4o", "OPENAI_API_KEY"⟩

/-- PROVIDER_DEFAULTS (config.py lines 9-80), as an association list in source order. -/
def PROVIDER_DEFAULTS : List (String × ProviderEntry) :=
  [ ("openai", openaiDefaults),
    ("anthropic", ⟨"https://api.anthropic.com/v1", "claude-sonnet-4-5-20250929", "ANTHROPIC_API_KEY"⟩),
    ("google", ⟨"https://generativelanguage.googleapis.com/v1beta/openai", "gemini-2.5-pro", "GOOGLE_AI_API_KEY"⟩),
    ("mistral", ⟨"https://api.mistral.ai/v1", "mistral-large-latest", "MISTRAL_API_KEY"⟩),
    ("xai", ⟨"https://api.x.ai/v1", "grok-3", "XAI_API_KEY"⟩),
    ("deepseek", ⟨"https://api.deepseek.com/v1", "deepseek-chat", "DEEPSEEK_API_KEY"⟩),
    ("openrouter", ⟨"https://openrouter.ai/api/v1", "openai/gpt-4o", "OPENROUTER_API_KEY"⟩),
    ("perplexity", ⟨"https://api.perplexity.ai", "sonar-pro", "PERPLEXITY_API_KEY"⟩),
    ("ollama", ⟨"http://localhost:11434/v1", "llama3.1", ""⟩),
    ("lmstudio", ⟨"http://localhost:1234/v1", "local-model", ""⟩),
    ("minimax", ⟨"https://api.minimax.chat/v1", "MiniMax-M2.1", "MINIMAX_API_KEY"⟩),
    ("glm", ⟨"https://open.bigmodel.cn/api/paas/v4", "glm-4-plus", "GLM_API_KEY"⟩),
    ("huggingface", ⟨"https://api-inference.huggingface.co/v1", "meta-llama/Llama-3.1-70B-Instruct", "HUGGINGFACE_API_KEY"⟩),
    ("vercel", ⟨"https://gateway.ai.vercel.app/v1", "openai/gpt-4o", "VERCEL_AI_GATEWAY_KEY"⟩) ]

/-- Python `provider in PROVIDER_DEFAULTS` / `PROVIDER_DEFAULTS[provider]`:
look a provider id up in the registry. -/
def providerLookup (p : String) : Option ProviderEntry :=
  (PROVIDER_DEFAULTS.find? (fun x => x.1 = p)).map (fun x => x.2)

/-- Python `PROVIDER_DEFAULTS.get(provider, PROVIDER_DEFAULTS["openai"])`
(config.py lines 103, 106, 149, 152). -/
def providerDictGet (p : String) : ProviderEntry :=
  (providerLookup p).getD openaiDefaults

/-- Index of the first occurrence of a character in a list of characters,
modelling Python `str.find` (which returns -1, modelled as `none`, on absence). -/
def findCharIdx : List Char → Char → Option Nat
  | [], _ => none
  | c :: cs, t => if c = t then some 0 else (findCharIdx cs t).map (fun i => i + 1)

/-- Python `"/" in s`. -/
def containsSlash (s : String) : Bool :=
  (findCharIdx s.toList '/').isSome

/-- Python string truthiness of `a or b` for strings: `b` when `a` is empty, else `a`. -/
def pyOr (a b : String) : String :=
  if a = "" then b else a

/-- The `_parse_model_string` function (config.py lines 83-91): split on the
first '/'; `slash > 0` and a registry hit yield (provider, rest); otherwise
("openai", whole string).  Python's `slash = model_str.find("/")` with
`slash > 0` corresponds to `findCharIdx ... = some slash` with `slash > 0`
(`find` returning -1 or 0 both fail the guard). -/
def _parse_model_string (model_str : String) : String × String :=
  match findCharIdx model_str.toList '/' with
  | some slash =>
    if slash > 0 then
      let provider := String.mk (model_str.toList.take slash)
      let model := String.mk (model_str.toList.drop (slash + 1))
      if (providerLookup provider).isSome then (provider, model)
      else ("openai", model_str)
    else ("openai", model_str)
  | none => ("openai", model_str)

/-- Modelled from the spec wording of shorthand parsing (spec.md §4.1): split
on the first `/`; if the substring before the first `/` is a key of the known
provider registry, the result is (that provider, the substring after the first
`/`); otherwise the result is ("openai", the entire original string). -/
def parseModelSpec (model_str : String) : String × String :=
  match findCharIdx model_str.toList '/' with
  | some slash =>
    let before := String.mk (model_str.toList.take slash)
    let after := String.mk (model_str.toList.drop (slash + 1))
    if (providerLookup before).isSome then (before, after)
    else ("openai", model_str)
  | none => ("openai", model_str)

/-- Abstract process environment: `none` means the variable is unset. -/
def Env : Type := String → Option String

/-- Python `os.getenv(name, dflt)`: the variable's value when set (even when
set to the empty string), otherwise the default. -/
def getenv (env : Env) (name dflt : String) : String :=
  (env name).getD dflt

/-- Resolved AI configuration tuple, in the order returned by
`_resolve_from_env` / `_resolve_config` (config.py lines 115, 159). -/
structure EffectiveConfig where
  provider : String
  model : String
  api_key : String
  base_url : String
  embedding_model : String
  embedding_api_key : String
  embedding_base_url : String
deriving DecidableEq, Repr

/-- The `_resolve_from_env` function (config.py lines 94-115): resolve AI
config from environment variables only. -/
def _resolve_from_env (env : Env) : EffectiveConfig :=
  let ai_provider := getenv env "AI_PROVIDER" "openai"
  let ai_model := getenv env "AI_MODEL" ""
  let pm : String × String :=
    if ai_model != "" && containsSlash ai_model then
      _parse_model_string ai_model
    else
      (ai_provider, pyOr ai_model (providerDictGet ai_provider).default_model)
  let provider := pm.1
  let model := pm.2
  let defaults := providerDictGet provider
  let env_key := defaults.env_key
  let api_key := if env_key != "" then getenv env env_key "" else ""
  let base_url := pyOr (getenv env "OPENAI_BASE_URL" "") defaults.base_url
  let embedding_model := getenv env "EMBEDDING_MODEL" "text-embedding-3-small"
  let embedding_api_key := pyOr (getenv env "EMBEDDING_API_KEY" "") api_key
  let embedding_base_url := pyOr (getenv env "EMBEDDING_BASE_URL" "") base_url
  ⟨provider, model, api_key, base_url, embedding_model, embedding_api_key, embedding_base_url⟩

/-- JSON record returned by the web app's settings endpoint; each field is
`none` when the key is absent from the returned object (`remote.get(k, d)`
is modelled by `Option.getD`). -/
structure RemoteRecord where
  provider : Option String
  model : Option String
  apiKey : Option String
  baseUrl : Option String
  embeddingModel : Option String
  embeddingApiKey : Option String
  embeddingBaseUrl : Option String
deriving DecidableEq, Repr

/-- Outcome of the HTTP call made by `_fetch_from_web_app`: `raises` covers a
connection error or timeout (the `httpx.get` call raising); `ok status body`
is a received response, where `body = none` in the 200 case means a malformed
body (`resp.json()` raising, also caught) or a falsy JSON value, and
`body = some r` a parsed (truthy) settings object. -/
inductive HttpResult where
  | raises : HttpResult
  | ok : Nat → Option RemoteRecord → HttpResult
deriving DecidableEq, Repr

/-- The `_fetch_from_web_app` function (config.py lines 118-134): the whole
call is wrapped in try/except, so every raising outcome is swallowed and
yields `none`; a non-200 response also yields `none`. -/
def _fetch_from_web_app (r : HttpResult) : Option RemoteRecord :=
  match r with
  | HttpResult.raises => none
  | HttpResult.ok status body => if status = 200 then body else none

/-- Body of the `if remote:` branch of `_resolve_config` (config.py lines
142-159): resolve the configuration from the fetched settings record alone. -/
def resolveRemoteRecord (remote : RemoteRecord) : EffectiveConfig :=
  let provider := remote.provider.getD "openai"
  let model0 := remote.model.getD ""
  let api_key := remote.apiKey.getD ""
  let base_url0 := remote.baseUrl.getD ""
  let model := if model0 = "" then (providerDictGet provider).default_model else model0
  let base_url := if base_url0 = "" then (providerDictGet provider).base_url else base_url0
  let embedding_model := remote.embeddingModel.getD "text-embedding-3-small"
  let embedding_api_key := pyOr (remote.embeddingApiKey.getD "") api_key
  let embedding_base_url := pyOr (remote.embeddingBaseUrl.getD "") base_url
  ⟨provider, model, api_key, base_url, embedding_model, embedding_api_key, embedding_base_url⟩

/-- The `_resolve_config` function (config.py lines 137-161): try the web
app's settings first, fall back to environment variables. -/
def _resolve_config (r : HttpResult) (env : Env) : EffectiveConfig :=
  match _fetch_from_web_app r with
  | some remote => resolveRemoteRecord remote
  | none => _resolve_from_env env

/-- C1: for every input string, shorthand parsing splits on the first '/':
a registry-known left segment gives (that provider, the rest), anything else
gives ("openai", the whole original string); in particular
"anthropic/claude-x" parses to (anthropic, "claude-x") and "some/weird/path"
parses to (openai, "some/weird/path"). -/
theorem parse_model_string_spec :
    (∀ s : String, _parse_model_string s = parseModelSpec s) ∧
    _parse_model_string "anthropic/claude-x" = ("anthropic", "claude-x") ∧
    _parse_model_string "some/weird/path" = ("openai", "some/weird/path") := by
  refine ⟨fun s => ?_, by decide, by decide⟩
  unfold _parse_model_string parseModelSpec
  cases h : findCharIdx s.toList '/' with
  | none => rfl
  | some slash =>
    cases slash with
    | zero =>
      simp only [gt_iff_lt, lt_self_iff_false, if_false, List.take_zero]
      have : providerLookup (String.mk []) = none := by decide
      rw [this]
      rfl
    | succ n =>
      simp only [gt_iff_lt, Nat.succ_pos, if_true]

/-- Every entry of the static registry has a non-empty base URL and a
non-empty default model. -/
theorem providerDefaults_entries_nonempty :
    ∀ x ∈ PROVIDER_DEFAULTS, x.2.base_url ≠ "" ∧ x.2.default_model ≠ "" := by
  decide

/-- The registry lookup with openai fallback always yields a non-empty base URL. -/
theorem providerDictGet_base_url_ne (p : String) : (providerDictGet p).base_url ≠ "" := by
  unfold providerDictGet providerLookup
  cases h : PROVIDER_DEFAULTS.find? (fun x => x.1 = p) with
  | none => simp [openaiDefaults]
  | some x =>
    have hm := List.mem_of_find?_eq_some h
    simpa using (providerDefaults_entries_nonempty x hm).1

/-- The registry lookup with openai fallback always yields a non-empty default model. -/
theorem providerDictGet_default_model_ne (p : String) :
    (providerDictGet p).default_model ≠ "" := by
  unfold providerDictGet providerLookup
  cases h : PROVIDER_DEFAULTS.find? (fun x => x.1 = p) with
  | none => simp [openaiDefaults]
  | some x =>
    have hm := List.mem_of_find?_eq_some h
    simpa using (providerDefaults_entries_nonempty x hm).2

/-- When a character occurs at a positive index, the prefix before it is non-empty. -/
theorem findCharIdx_some_take_ne (l : List Char) (c : Char) (n : Nat)
    (h : findCharIdx l c = some (n + 1)) : l.take (n + 1) ≠ [] := by
  cases l with
  | nil => simp [findCharIdx] at h
  | cons a as => simp

/-- The provider component returned by shorthand parsing is never empty. -/
theorem parse_fst_ne_empty (s : String) : (_parse_model_string s).1 ≠ "" := by
  unfold _parse_model_string
  cases h : findCharIdx s.toList '/' with
  | none => simp
  | some slash =>
    cases slash with
    | zero => simp
    | succ n =>
      simp only [gt_iff_lt, Nat.succ_pos, if_true]
      split
      · intro heq
        have hd := congrArg String.data heq
        simp at hd
        have h2 := h
        rw [show s.toList = s.data from rfl, hd] at h2
        simp [findCharIdx] at h2
      · simp

/-- An environment with every variable unset. -/
def emptyEnv : Env := fun _ => none

/-- C3: the remote-settings fetch never raises: a connection error or timeout,
a non-200 status, and a malformed 200 body all make `_fetch_from_web_app`
return no result, and `_resolve_config` then completes using
environment-variable resolution alone. -/
theorem fetch_from_web_app_never_raises (env : Env) (s : Nat) (j : Option RemoteRecord)
    (hs : s ≠ 200) :
    _fetch_from_web_app HttpResult.raises = none ∧
    _fetch_from_web_app (HttpResult.ok s j) = none ∧
    _fetch_from_web_app (HttpResult.ok 200 none) = none ∧
    _resolve_config HttpResult.raises env = _resolve_from_env env ∧
    _resolve_config (HttpResult.ok s j) env = _resolve_from_env env ∧
    _resolve_config (HttpResult.ok 200 none) env = _resolve_from_env env := by
  refine ⟨rfl, ?_, rfl, rfl, ?_, rfl⟩ <;>
    simp [_fetch_from_web_app, _resolve_config, hs]

/-- Witness for C3 at a concrete 500 response and the empty environment. -/
theorem fetch_from_web_app_never_raises_witness :
    _fetch_from_web_app (HttpResult.ok 500 none) = none ∧
    _resolve_config (HttpResult.ok 500 none) emptyEnv = _resolve_from_env emptyEnv := by
  have h := fetch_from_web_app_never_raises emptyEnv 500 none (by decide)
  exact ⟨h.2.1, h.2.2.2.2.1⟩

/-- C4: an unrecognized provider id falls back to the openai registry entry:
the defaults record selected is openai's, so (env path, with no model or base
URL override) the model defaults to "gpt-4o", the base URL to openai's, the
credential is read from OPENAI_API_KEY, and (remote path) empty model and base
URL fields fall through to openai's defaults. -/
theorem unknown_provider_openai_fallback (p : String) (env : Env)
    (hp : providerLookup p = none)
    (hprov : env "AI_PROVIDER" = some p)
    (hmodel : env "AI_MODEL" = none)
    (hbase : env "OPENAI_BASE_URL" = none) :
    providerDictGet p = openaiDefaults ∧
    (_resolve_from_env env).model = "gpt-4o" ∧
    (_resolve_from_env env).base_url = "https://api.openai.com/v1" ∧
    (_resolve_from_env env).api_key = getenv env "OPENAI_API_KEY" "" ∧
    (∀ r : RemoteRecord, r.provider = some p → r.model.getD "" = "" →
      (resolveRemoteRecord r).model = "gpt-4o") ∧
    (∀ r : RemoteRecord, r.provider = some p → r.baseUrl.getD "" = "" →
      (resolveRemoteRecord r).base_url = "https://api.openai.com/v1") := by
  have hd : providerDictGet p = openaiDefaults := by
    unfold providerDictGet
    rw [hp]
    rfl
  refine ⟨hd, ?_, ?_, ?_, ?_, ?_⟩
  · simp [_resolve_from_env, getenv, hprov, hmodel, hd, pyOr, openaiDefaults]
  · simp [_resolve_from_env, getenv, hprov, hmodel, hbase, hd, pyOr, openaiDefaults]
  · simp [_resolve_from_env, getenv, hprov, hmodel, hd, pyOr, openaiDefaults]
  · intro r hrp hrm
    simp [resolveRemoteRecord, hrp, hrm, hd, openaiDefaults]
  · intro r hrp hrb
    simp [resolveRemoteRecord, hrp, hrb, hd, openaiDefaults]

/-- Environment that only sets AI_PROVIDER to an id outside the registry. -/
def envUnknownProvider : Env :=
  fun n => if n = "AI_PROVIDER" then some "not-a-provider" else none

/-- Witness for C4 at a concrete unknown provider id. -/
theorem unknown_provider_openai_fallback_witness :
    (_resolve_from_env envUnknownProvider).model = "gpt-4o" ∧
    (_resolve_from_env envUnknownProvider).base_url = "https://api.openai.com/v1" := by
  have h := unknown_provider_openai_fallback "not-a-provider" envUnknownProvider
    (by decide) rfl rfl rfl
  exact ⟨h.2.1, h.2.2.1⟩

/-- Settings record naming the anthropic provider with an empty model field. -/
def anthropicEmptyModel : RemoteRecord :=
  ⟨some "anthropic", some "", some "k", none, none, none, none⟩

/-- C10: in both resolution paths, an unset EMBEDDING_MODEL variable / absent
embeddingModel field resolves to the fixed string "text-embedding-3-small". -/
theorem embedding_model_default (env : Env) (r : RemoteRecord)
    (h1 : env "EMBEDDING_MODEL" = none)
    (h2 : r.embeddingModel = none) :
    (_resolve_from_env env).embedding_model = "text-embedding-3-small" ∧
    (resolveRemoteRecord r).embedding_model = "text-embedding-3-small" := by
  unfold _resolve_from_env resolveRemoteRecord
  simp [getenv, h1, h2]

/-- Witness for C10 at a concrete environment and record. -/
theorem embedding_model_default_witness :
    (_resolve_from_env envUnknownProvider).embedding_model = "text-embedding-3-small" ∧
    (resolveRemoteRecord anthropicEmptyModel).embedding_model = "text-embedding-3-small" := by
  exact embedding_model_default envUnknownProvider anthropicEmptyModel rfl rfl

/-- Python-truthiness `or` with a non-empty right operand is non-empty. -/
theorem pyOr_ne_empty (a b : String) (hb : b ≠ "") : pyOr a b ≠ "" := by
  unfold pyOr
  split
  · exact hb
  · assumption

/-- The (provider, model) pair chosen by `_resolve_from_env` before the
defaults lookup (config.py lines 99-104), written out as one expression. -/
def envPm (env : Env) : String × String :=
  if (getenv env "AI_MODEL" "" != "") && containsSlash (getenv env "AI_MODEL" "") then
    _parse_model_string (getenv env "AI_MODEL" "")
  else
    (getenv env "AI_PROVIDER" "openai",
      pyOr (getenv env "AI_MODEL" "")
        (providerDictGet (getenv env "AI_PROVIDER" "openai")).default_model)

/-- Field equation for the provider resolved from the environment. -/
theorem resolve_from_env_provider_eq (env : Env) :
    (_resolve_from_env env).provider = (envPm env).1 := rfl

/-- Field equation for the model resolved from the environment. -/
theorem resolve_from_env_model_eq (env : Env) :
    (_resolve_from_env env).model = (envPm env).2 := rfl

/-- Field equation for the base URL resolved from the environment. -/
theorem resolve_from_env_base_url_eq (env : Env) :
    (_resolve_from_env env).base_url
      = pyOr (getenv env "OPENAI_BASE_URL" "") (providerDictGet (envPm env).1).base_url := rfl

/-- Field equation for the provider resolved from a remote record. -/
theorem resolveRemoteRecord_provider_eq (r : RemoteRecord) :
    (resolveRemoteRecord r).provider = r.provider.getD "openai" := rfl

/-- Field equation for the model resolved from a remote record. -/
theorem resolveRemoteRecord_model_eq (r : RemoteRecord) :
    (resolveRemoteRecord r).model
      = (if r.model.getD "" = "" then
          (providerDictGet (r.provider.getD "openai")).default_model
        else r.model.getD "") := rfl

/-- Field equation for the base URL resolved from a remote record. -/
theorem resolveRemoteRecord_base_url_eq (r : RemoteRecord) :
    (resolveRemoteRecord r).base_url
      = (if r.baseUrl.getD "" = "" then
          (providerDictGet (r.provider.getD "openai")).base_url
        else r.baseUrl.getD "") := rfl

/-- Environment that sets AI_PROVIDER to the empty string and nothing else. -/
def envEmptyProviderVar : Env :=
  fun n => if n = "AI_PROVIDER" then some "" else none

/-- C2 (counterexample): with the settings service unreachable and
AI_PROVIDER set to the empty string, the resolved provider is the empty
string, so the resolved tuple does not have a non-empty provider, model and
base URL. -/
theorem resolve_config_nonempty_counterexample :
    ¬ ((_resolve_config HttpResult.raises envEmptyProviderVar).provider ≠ "" ∧
       (_resolve_config HttpResult.raises envEmptyProviderVar).model ≠ "" ∧
       (_resolve_config HttpResult.raises envEmptyProviderVar).base_url ≠ "") := by
  decide

/-- C2 (amended): every resolved configuration, for every input, has a
non-empty base URL; the provider and model are also non-empty provided the
inputs avoid the degenerate empty forms: AI_PROVIDER and the remote provider
field are never set to the empty string, and a set AI_MODEL never parses to an
empty right-hand side (as "anthropic/" would). -/
theorem resolve_config_nonempty_amended (r : HttpResult) (env : Env) :
    (_resolve_config r env).base_url ≠ "" ∧
    ((env "AI_PROVIDER" ≠ some "") →
      (∀ s : String, env "AI_MODEL" = some s → s ≠ "" →
        (_parse_model_string s).2 ≠ "") →
      (∀ rec : RemoteRecord, _fetch_from_web_app r = some rec →
        rec.provider ≠ some "") →
      (_resolve_config r env).provider ≠ "" ∧
      (_resolve_config r env).model ≠ "") := by
  constructor
  · unfold _resolve_config
    cases hf : _fetch_from_web_app r with
    | some rec =>
      rw [resolveRemoteRecord_base_url_eq]
      split
      · exact providerDictGet_base_url_ne _
      · assumption
    | none =>
      rw [resolve_from_env_base_url_eq]
      exact pyOr_ne_empty _ _ (providerDictGet_base_url_ne _)
  · intro hprov hmodel hremote
    unfold _resolve_config
    cases hf : _fetch_from_web_app r with
    | some rec =>
      have hrp := hremote rec hf
      refine ⟨?_, ?_⟩
      · rw [resolveRemoteRecord_provider_eq]
        cases hp : rec.provider with
        | none => simp
        | some s =>
          simp only [Option.getD_some]
          intro he
          exact hrp (by rw [hp, he])
      · rw [resolveRemoteRecord_model_eq]
        split
        · exact providerDictGet_default_model_ne _
        · assumption
    | none =>
      refine ⟨?_, ?_⟩
      · rw [resolve_from_env_provider_eq]
        unfold envPm
        split
        · exact parse_fst_ne_empty _
        · cases he : env "AI_PROVIDER" with
          | none => simp [getenv, he]
          | some s =>
            simp only [getenv, he, Option.getD_some]
            intro heq
            exact hprov (by rw [he, heq])
      · rw [resolve_from_env_model_eq]
        unfold envPm
        split
        · rename_i hc
          cases he : env "AI_MODEL" with
          | none =>
            rw [show getenv env "AI_MODEL" "" = "" from by simp [getenv, he]] at hc
            simp at hc
          | some s =>
            have hg : getenv env "AI_MODEL" "" = s := by simp [getenv, he]
            rw [hg] at hc ⊢
            have hs : s ≠ "" := by
              intro heq
              rw [heq] at hc
              simp at hc
            exact hmodel s he hs
        · exact pyOr_ne_empty _ _ (providerDictGet_default_model_ne _)

/-- Witness for the amended C2 at a concrete environment and failed fetch,
discharging the implications of the provider/model conjunct. -/
theorem resolve_config_nonempty_amended_witness :
    (_resolve_config HttpResult.raises envUnknownProvider).base_url ≠ "" ∧
    (_resolve_config HttpResult.raises envUnknownProvider).provider ≠ "" ∧
    (_resolve_config HttpResult.raises envUnknownProvider).model ≠ "" := by
  have h := resolve_config_nonempty_amended HttpResult.raises envUnknownProvider
  refine ⟨h.1, h.2 (by decide) ?_ ?_⟩
  · intro s hs
    simp [envUnknownProvider] at hs
  · intro rec hrec
    simp [_fetch_from_web_app] at hrec

/-- Python truthiness of an optional string (`None` and `""` are falsy). -/
def pyTruthy (o : Option String) : Bool :=
  match o with
  | none => false
  | some s => s != ""

/-- Python `opt or fresh` on an optional string: the value when set and
non-empty, otherwise the fallback (used for `req.doc_id or str(uuid.uuid4())`,
server.py lines 212, 241, 245). -/
def pyOrOpt (o : Option String) (fresh : String) : String :=
  if pyTruthy o then o.getD "" else fresh

/-- HTTP error as raised by `HTTPException(status_code, detail)`. -/
def HttpError : Type := Nat × String

/-- The `verify_api_key` dependency (server.py lines 150-154): no check when
no server API key is configured; otherwise the Authorization header must be
truthy and equal to "Bearer " followed by the key. -/
def verify_api_key (api_key : String) (authorization : Option String) :
    Except HttpError Unit :=
  if api_key = "" then Except.ok ()
  else if !pyTruthy authorization || (authorization.getD "" != "Bearer " ++ api_key) then
    Except.error (401, "Invalid API key")
  else Except.ok ()

/-- State of the opaque RAG engine collaborator: the list of texts passed to
its insert operation, in order. -/
abbrev Engine : Type := List String

/-- A protected endpoint (FastAPI `dependencies=[Depends(verify_api_key)]`):
the auth dependency runs first, and only when it passes does the handler body
run and touch the engine. -/
def runProtected {α : Type} (api_key : String) (authorization : Option String)
    (handler : Engine → Engine × α) (e : Engine) : Engine × Except HttpError α :=
  match verify_api_key api_key authorization with
  | Except.error err => (e, Except.error err)
  | Except.ok _ =>
    let r := handler e
    (r.1, Except.ok r.2)

/-- C6: with no server API key configured the check passes regardless of the
header; with one configured it passes exactly when the header equals
"Bearer " followed by the key, and a missing or mismatched header yields a 401
with the engine untouched (no collaborator call). -/
theorem verify_api_key_auth {α : Type} (k : String) (a : Option String)
    (handler : Engine → Engine × α) (e : Engine) :
    (k = "" → runProtected k a handler e = ((handler e).1, Except.ok (handler e).2)) ∧
    (k ≠ "" → ((runProtected k a handler e).2 = Except.ok (handler e).2 ↔
      a = some ("Bearer " ++ k))) ∧
    (k ≠ "" → a ≠ some ("Bearer " ++ k) →
      runProtected k a handler e = (e, Except.error (401, "Invalid API key"))) := by
  have hbk : "Bearer " ++ k ≠ "" := by
    intro h
    have := congrArg String.data h
    simp [String.data] at this
  refine ⟨?_, ?_, ?_⟩
  · intro hk
    subst hk
    simp [runProtected, verify_api_key]
  · intro hk
    constructor
    · intro hok
      by_contra hne
      have : verify_api_key k a = Except.error (401, "Invalid API key") := by
        unfold verify_api_key
        rw [if_neg hk]
        rw [if_pos]
        cases a with
        | none => simp [pyTruthy]
        | some s =>
          simp only [pyTruthy, Option.getD_some]
          have hs : s ≠ "Bearer " ++ k := fun h => hne (by rw [h])
          simp [hs]
      unfold runProtected at hok
      rw [this] at hok
      simp at hok
    · intro ha
      subst ha
      have : verify_api_key k (some ("Bearer " ++ k)) = Except.ok () := by
        unfold verify_api_key
        rw [if_neg hk]
        rw [if_neg]
        simp [pyTruthy, hbk]
      unfold runProtected
      rw [this]
  · intro hk hne
    have : verify_api_key k a = Except.error (401, "Invalid API key") := by
      unfold verify_api_key
      rw [if_neg hk]
      rw [if_pos]
      cases a with
      | none => simp [pyTruthy]
      | some s =>
        simp only [pyTruthy, Option.getD_some]
        have hs : s ≠ "Bearer " ++ k := fun h => hne (by rw [h])
        simp [hs]
    unfold runProtected
    rw [this]

/-- Witness for C6: a configured key with a missing header yields a 401 and an
untouched engine, and with the matching header the handler result. -/
theorem verify_api_key_auth_witness :
    runProtected "sekret" none (fun e => (e ++ ["t"], 7)) []
      = ([], Except.error (401, "Invalid API key")) ∧
    (runProtected "sekret" (some "Bearer sekret") (fun e => (e ++ ["t"], 7)) []).2
      = Except.ok 7 := by
  have h := verify_api_key_auth "sekret" (none : Option String)
    (fun e : Engine => (e ++ ["t"], 7)) []
  have h2 := verify_api_key_auth "sekret" (some "Bearer sekret")
    (fun e : Engine => (e ++ ["t"], 7)) []
  refine ⟨h.2.2 (by decide) (by decide), ?_⟩
  exact (h2.2.1 (by decide)).2 rfl

/-- Python truthiness of an optional dict (`None` and `{}` are falsy); a dict
of string keys/values is modelled as an association list. -/
def pyTruthyDict (o : Option (List (String × String))) : Bool :=
  match o with
  | none => false
  | some l => !l.isEmpty

/-- Python `"\n".join(items)`. -/
def joinNL : List String → String
  | [] => ""
  | [x] => x
  | x :: xs => x ++ "\n" ++ joinNL xs

/-- Request body of POST /ingest (server.py, class IngestRequest). -/
structure IngestRequest where
  content : String
  doc_id : Option String
  metadata : Option (List (String × String))

/-- Success body returned by POST /ingest. -/
structure IngestResponse where
  status : String
  doc_id : String
deriving DecidableEq, Repr

/-- Request body of POST /ingest/file (server.py, class IngestFileRequest). -/
structure IngestFileRequest where
  file_path : String
  doc_id : Option String
  metadata : Option (List (String × String))

/-- Success body returned by POST /ingest/file, including the processing mode. -/
structure IngestFileResponse where
  status : String
  doc_id : String
  mode : String
deriving DecidableEq, Repr

/-- Outcome of `open(req.file_path).read()`: the file's text, or the message
of the exception raised while opening/reading. -/
inductive FileRead where
  | ok : String → FileRead
  | err : String → FileRead

/-- The `ingest_text` handler (server.py lines 205-224): 503 when the engine
is unavailable; otherwise synthesize an id when none (or an empty one) is
supplied, prepend metadata as inline context lines when a non-empty metadata
dict is present, and forward the text to the engine's insert. -/
def ingest_text (ragAvail : Bool) (fresh : String) (req : IngestRequest) (e : Engine) :
    Engine × Except HttpError IngestResponse :=
  if !ragAvail then (e, Except.error (503, "RAG engine not available"))
  else
    let doc_id := pyOrOpt req.doc_id fresh
    let content :=
      if pyTruthyDict req.metadata then
        let meta_str := joinNL ((req.metadata.getD []).map (fun kv => kv.1 ++ ": " ++ kv.2))
        "[Document ID: " ++ doc_id ++ "]\n[Metadata]\n" ++ meta_str ++ "\n\n" ++ req.content
      else req.content
    (e ++ [content], Except.ok ⟨"ok", doc_id⟩)

/-- The `ingest_file` handler (server.py lines 227-254): when the
document-processor collaborator is unavailable, fall back to the plain engine
(503 when that is also unavailable), read the file as text and insert it,
reporting mode "text_only"; when the processor is available, run
`process_document` and report mode "multimodal". -/
def ingest_file (ragAnyAvail ragAvail : Bool) (file : FileRead)
    (proc : Except String Unit) (fresh : String) (req : IngestFileRequest) (e : Engine) :
    Engine × Except HttpError IngestFileResponse :=
  if !ragAnyAvail then
    if !ragAvail then (e, Except.error (503, "RAG engine not available"))
    else
      match file with
      | FileRead.err m => (e, Except.error (500, m))
      | FileRead.ok content =>
        (e ++ [content], Except.ok ⟨"ok", pyOrOpt req.doc_id fresh, "text_only"⟩)
  else
    let doc_id := pyOrOpt req.doc_id fresh
    match proc with
    | Except.error m => (e, Except.error (500, m))
    | Except.ok _ => (e, Except.ok ⟨"ok", doc_id, "multimodal"⟩)

/-- C8: with the document processor unavailable, the engine available and the
file readable, ingest-file inserts the file's text into the engine and returns
a success response with mode "text_only". -/
theorem ingest_file_text_only_fallback (c fresh : String) (proc : Except String Unit)
    (req : IngestFileRequest) (e : Engine) :
    ingest_file false true (FileRead.ok c) proc fresh req e
      = (e ++ [c], Except.ok ⟨"ok", pyOrOpt req.doc_id fresh, "text_only"⟩) := by
  rfl

/-- C9: an ingest-text request without metadata forwards exactly the request's
content to the engine, the inserted text is independent of the synthesized id,
and the id (supplied or synthesized) appears only in the HTTP response. -/
theorem ingest_text_no_metadata (req : IngestRequest) (fresh fresh2 : String) (e : Engine)
    (h : req.metadata = none) :
    (ingest_text true fresh req e).1 = e ++ [req.content] ∧
    (ingest_text true fresh req e).1 = (ingest_text true fresh2 req e).1 ∧
    (ingest_text true fresh req e).2 = Except.ok ⟨"ok", pyOrOpt req.doc_id fresh⟩ := by
  unfold ingest_text
  simp [h, pyTruthyDict]

/-- Witness for C9 at a concrete request without metadata. -/
theorem ingest_text_no_metadata_witness :
    (ingest_text true "uuid-1" ⟨"hello world", none, none⟩ []).1 = ["hello world"] ∧
    (ingest_text true "uuid-1" ⟨"hello world", none, none⟩ []).2
      = Except.ok ⟨"ok", "uuid-1"⟩ := by
  have h := ingest_text_no_metadata ⟨"hello world", none, none⟩ "uuid-1" "uuid-2" [] rfl
  exact ⟨h.1, h.2.2⟩
